import Mathlib

/-!
Verification of the nopal-detector detection core against its specification.

The development shallowly embeds the detection pipeline of the repository:

* `src/nopal_detector/core/detector.py` — mode orchestration
  (`NopalDetector._detect_with_mode`, `_process_stream`, `_process_source`);
* `src/nopal_detector/services/detection.py` — keypoint pipeline
  (`OpenCVService`: `_load_single_reference`, `_find_candidates`,
  `_try_match_and_draw`, `_iou_poly_rect_ok`, `detect_in_frame`);
* `src/nopal_detector/services/color_detection.py` — color pipeline
  (`ColorDetectionService.detect_in_frame`, `_detect_color`,
  `create_default_color_config`);
* `src/nopal_detector/config/settings.py` — default configuration values.

Python floats are modelled as rationals, machine integers as `Nat`, numpy
image buffers as values of an abstract type `F` (mutation in the source is
explicit state passing here: a function that writes to a buffer takes the
buffer and returns the new value), rasterized binary masks as finite sets of
pixel coordinates, and fallible operations as `Except`/`Option`.  OpenCV
primitives (feature extraction, homography fitting, contour extraction,
polygon rasterization, drawing) are external collaborators: they enter the
definitions as parameters, while every decision the repository's own code
makes (thresholds, gates, control flow) is translated literally.
-/

namespace Nopal

/-! ## Result records (services/detection.py, services/color_detection.py) -/

/-- `DetectionResult` dataclass of `services/detection.py` (lines 25-31).
`F` is the frame-buffer carrier, `M` the mask carrier, `H` the homography
carrier. -/
structure DetectionResult (F M H : Type) where
  frame_with_overlay : F
  mask : Option M
  matches_found : Nat
  has_detection : Bool
  homography : Option H := none

/-- `ColorDetectionResult` dataclass of `services/color_detection.py`
(lines 22-30).  `C` is the contour carrier; `detections` pairs a color name
with a contour. -/
structure ColorDetectionResult (F M C : Type) where
  frame_with_overlay : F
  mask : Option M
  detections : List (String × C)
  total_detections : Nat
  colors_found : List String

/-! ## Mode orchestrator (core/detector.py, `_detect_with_mode`) -/

/-- The tuple `(frame_procesado, mask, has_detection, matches_o_detecciones)`
returned by `NopalDetector._detect_with_mode`. -/
structure ModeOutput (F M : Type) where
  frame : F
  mask : Option M
  has_detection : Bool
  count : Nat

/-- `NopalDetector._detect_with_mode` (core/detector.py lines 312-358).
The two services are passed as functions (`self.opencv_service.detect_in_frame`
and `self.color_service.detect_in_frame`).  The second component of the result
counts how many times the color service was invoked while handling this frame,
so that "the color detector is never invoked" is an observable statement. -/
def detectWithMode {F M H C : Type}
    (orbDetect : F → DetectionResult F M H)
    (colorDetect : F → ColorDetectionResult F M C)
    (mode : String) (frame : F) : ModeOutput F M × Nat :=
  if mode = "orb" then
    let r := orbDetect frame
    (⟨r.frame_with_overlay, r.mask, r.has_detection, r.matches_found⟩, 0)
  else if mode = "color" then
    let r := colorDetect frame
    (⟨r.frame_with_overlay, r.mask, decide (0 < r.total_detections),
      r.total_detections⟩, 1)
  else if mode = "auto" then
    let orbResult := orbDetect frame
    if orbResult.has_detection then
      (⟨orbResult.frame_with_overlay, orbResult.mask, true,
        orbResult.matches_found⟩, 0)
    else
      let colorResult := colorDetect frame
      if 0 < colorResult.total_detections then
        (⟨colorResult.frame_with_overlay, colorResult.mask, true,
          colorResult.total_detections⟩, 1)
      else
        (⟨orbResult.frame_with_overlay, orbResult.mask, false,
          orbResult.matches_found⟩, 1)
  else
    -- invalid mode: warn and fall back to ORB
    let r := orbDetect frame
    (⟨r.frame_with_overlay, r.mask, r.has_detection, r.matches_found⟩, 0)

/-! ## Keypoint matcher configuration (config/settings.py, `ORBConfig`) -/

/-- `ORBConfig` dataclass of `config/settings.py` (lines 24-32); fields that
drive detection decisions.  Float fields are rationals. -/
structure ORBConfig where
  n_features : Nat := 2000
  min_matches : Nat := 18
  ratio_threshold : Rat := 75 / 100
  ransac_threshold : Rat := 5

/-- The defaults of `ORBConfig` in `config/settings.py`. -/
def defaultORBConfig : ORBConfig := {}

/-! ## Ratio test and adaptive minimum (services/detection.py,
`_try_match_and_draw` lines 306-326) -/

/-- One entry of `bf_matcher.knnMatch(ref.descriptors, des_frame, k=2)`:
the list of distances of the (up to two) nearest frame descriptors to one
reference descriptor.  The source keeps a pair iff `len(pair) == 2` and
`m.distance < ratio_threshold * n.distance`. -/
def isGoodPair (rt : Rat) : List Rat → Bool
  | [m, n] => decide (m < rt * n)
  | _ => false

/-- Number of good matches: length of the `good` list built by the ratio-test
loop of `_try_match_and_draw`. -/
def goodCount (rt : Rat) (knnPairs : List (List Rat)) : Nat :=
  (knnPairs.filter (isGoodPair rt)).length

/-- An axis-aligned rectangle `(x, y, w, h)` as produced by
`cv2.boundingRect`. -/
structure Rect where
  x : Nat
  y : Nat
  w : Nat
  h : Nat
deriving DecidableEq

/-- `peri = 2 * (w + h)` of `_try_match_and_draw` (line 322). -/
def regionPerimeter (r : Rect) : Nat := 2 * (r.w + r.h)

/-- The adaptive acceptance minimum of `_try_match_and_draw` (lines 319-323):
`min_matches` unchanged without a ROI, and
`max(12, min_matches, int(0.02 * peri))` with one.  Python `int` truncates,
which on the nonnegative `0.02 * peri` is the floor. -/
def adaptiveMinMatches (base : Nat) : Option Rect → Nat
  | none => base
  | some r =>
      max 12 (max base
        (Int.toNat (Int.floor ((2 : Rat) / 100 * (regionPerimeter r : Rat)))))

/-! ## IoU validation (services/detection.py, `_iou_poly_rect_ok`
lines 359-376) -/

/-- The set of pixels painted by
`cv2.rectangle(m2, (x, y), (x + w, y + h), 255, -1)`: both corners are
inclusive. -/
def rectPixels (r : Rect) : Finset (Nat × Nat) :=
  Finset.Icc r.x (r.x + r.w) ×ˢ Finset.Icc r.y (r.y + r.h)

/-- `_iou_poly_rect_ok(poly, rect, threshold)`.  `poly` is the pixel set
rasterized by `cv2.fillPoly(m1, [poly])` for the projected quadrilateral;
`inter`/`union` are the `countNonZero` of the mask intersection/union;
the result is `False` when the union is empty, else `iou >= threshold`. -/
def iouPolyRectOk (poly : Finset (Nat × Nat)) (r : Rect) (threshold : Rat) :
    Bool :=
  let inter := (poly ∩ rectPixels r).card
  let union := (poly ∪ rectPixels r).card
  if union = 0 then false
  else decide (threshold ≤ (inter : Rat) / (union : Rat))

/-! ## `_try_match_and_draw` (services/detection.py lines 306-357) -/

/-- The quadruple `(len(good), ok, H, mask)` returned by
`_try_match_and_draw`. -/
structure TryMatchResult (H : Type) where
  good : Nat
  ok : Bool
  homography : Option H
  mask : Option (Finset (Nat × Nat))

/-- `OpenCVService._try_match_and_draw`.  The parts OpenCV computes enter as
parameters: `matches` is the `knnMatch` distance table, `fit` the outcome of
`cv2.findHomography(src_pts, dst_pts, RANSAC, ransac_threshold)` on the good
matches, and `polyPixels` the rasterization of the reference corners projected
through the fitted transform (already shifted by `(x, y)` into global
coordinates when a ROI is given, as lines 341-344 do).  Everything the
repository's own code decides — the ratio test, the adaptive minimum, the
degenerate-fit rejection, the 0.3 IoU gate, mask creation — is translated
literally.  Drawing on `output_frame` does not affect the returned
quadruple. -/
def tryMatchAndDraw {H : Type} (cfg : ORBConfig)
    (knnPairs : List (List Rat))
    (roiBox : Option Rect)
    (fit : Option H)
    (polyPixels : Finset (Nat × Nat)) : TryMatchResult H :=
  let good := goodCount cfg.ratio_threshold knnPairs
  let minM := adaptiveMinMatches cfg.min_matches roiBox
  if good < minM then ⟨good, false, none, none⟩
  else
    match fit with
    | none => ⟨good, false, none, none⟩
    | some hm =>
        match roiBox with
        | some r =>
            if iouPolyRectOk polyPixels r (3 / 10) then
              ⟨good, true, some hm, some polyPixels⟩
            else ⟨good, false, none, none⟩
        | none => ⟨good, true, some hm, some polyPixels⟩

/-! ## Reference loading (services/detection.py, `_load_single_reference`
lines 122-152) -/

/-- The errors `_load_single_reference` raises: `FileNotFoundError` when
`Path(ref_path).exists()` is false, `RuntimeError` when `cv2.imread` returns
`None`, and `RuntimeError` ("Muy pocos puntos clave…") when the descriptors
are `None` or fewer than 8 keypoints were found.  The spec groups all three
as `ReferenceLoadError`. -/
inductive RefLoadError where
  | fileNotFound : String → RefLoadError
  | unreadableImage : String → RefLoadError
  | tooFewKeypoints : RefLoadError
deriving DecidableEq

/-- `ReferenceData` dataclass of `services/detection.py` (lines 34-44).
`descriptors` keeps the `Optional` typing of `detectAndCompute`'s output. -/
structure ReferenceData (Img KP Des : Type) where
  image : Img
  gray : Img
  keypoints : List KP
  descriptors : Option Des
  height : Nat
  width : Nat
  hu : Option (List Rat)
  edge : Img
  name : String

/-- `OpenCVService._load_single_reference(ref_path)`.  The file system and the
OpenCV primitives are parameters: `pathExists` is `Path(ref_path).exists()`,
`imread` is `cv2.imread` (`none` on failure), `toGray` is
`cvtColor(..., COLOR_BGR2GRAY)`, `detectAndCompute` is
`self.feat.detectAndCompute(gray, None)`, `computeHu` is
`_compute_hu_moments`, `makeEdgeMap` is `_make_edge_map`, and `dims` reads
`gray.shape[:2]` as `(h, w)`.  `baseName` is `Path(ref_path).name`. -/
def loadSingleReference {Img KP Des : Type}
    (pathExists : String → Bool)
    (imread : String → Option Img)
    (toGray : Img → Img)
    (detectAndCompute : Img → List KP × Option Des)
    (computeHu : Img → Option (List Rat))
    (makeEdgeMap : Img → Img)
    (dims : Img → Nat × Nat)
    (baseName : String → String)
    (refPath : String) : Except RefLoadError (ReferenceData Img KP Des) :=
  if pathExists refPath = false then
    Except.error (RefLoadError.fileNotFound refPath)
  else
    match imread refPath with
    | none => Except.error (RefLoadError.unreadableImage refPath)
    | some img =>
        let gray := toGray img
        let kpDes := detectAndCompute gray
        if kpDes.2.isNone ∨ kpDes.1.length < 8 then
          Except.error RefLoadError.tooFewKeypoints
        else
          let hw := dims gray
          Except.ok
            { image := img
              gray := gray
              keypoints := kpDes.1
              descriptors := kpDes.2
              height := hw.1
              width := hw.2
              hu := computeHu gray
              edge := makeEdgeMap img
              name := baseName refPath }

/-! ## Region proposer (services/detection.py, `_find_candidates`
lines 174-203) -/

/-- The measured quantities OpenCV reports for one external contour of the
saturation mask: `area = cv2.contourArea(c)`,
`(x, y, w, h) = cv2.boundingRect(c)`, `peri = cv2.arcLength(c, True)`. -/
structure ContourMeas where
  area : Rat
  x : Nat
  y : Nat
  w : Nat
  h : Nat
  peri : Rat
deriving DecidableEq

/-- The literal `3.14159265` that `_find_candidates` uses for π
(line 200). -/
def piApprox : Rat := 314159265 / 100000000

/-- `ar = w / float(h)` of `_find_candidates` (line 196). -/
def contourAspect (c : ContourMeas) : Rat := (c.w : Rat) / (c.h : Rat)

/-- `circularity = 4.0 * 3.14159265 * area / (peri * peri)` of
`_find_candidates` (line 200). -/
def circularity (c : ContourMeas) : Rat :=
  4 * piApprox * c.area / (c.peri * c.peri)

/-- The contour-filter loop of `_find_candidates` (lines 190-203): skip a
contour when `area < 800` or `peri == 0`; keep `(x, y, w, h, c)` iff
`0.5 <= ar <= 2.0` and `0.55 <= circularity <= 0.95`. -/
def findCandidates (cs : List ContourMeas) :
    List (Nat × Nat × Nat × Nat × ContourMeas) :=
  cs.filterMap (fun c =>
    if c.area < 800 then none
    else if c.peri = 0 then none
    else if (0.5 : Rat) ≤ contourAspect c ∧ contourAspect c ≤ 2 ∧
        (0.55 : Rat) ≤ circularity c ∧ circularity c ≤ (0.95 : Rat) then
      some (c.x, c.y, c.w, c.h, c)
    else none)

/-! ## Color segmentation detector (services/color_detection.py) -/

/-- `HSVRange = Tuple[Tuple[int, int, int], Tuple[int, int, int]]`
(services/color_detection.py line 19). -/
def HSVRange : Type := (Nat × Nat × Nat) × (Nat × Nat × Nat)

/-- The measured quantities of one external contour of a cleaned color mask,
as used by `_detect_color` (lines 151-185): `area = cv2.contourArea(contour)`,
`(x, y, w, h) = cv2.boundingRect(contour)`,
`hullArea = cv2.contourArea(cv2.convexHull(contour))`,
`peri = cv2.arcLength(contour, True)`, and `fill` the set of pixels
`cv2.drawContours(mask_global, [smooth_contour], -1, 255, FILLED)` paints for
its polygon approximation.  The record stands for the contour together with
its smoothed version. -/
structure ColorContour where
  area : Rat
  x : Nat
  y : Nat
  w : Nat
  h : Nat
  hullArea : Rat
  peri : Rat
  fill : Finset (Nat × Nat)
deriving DecidableEq

/-- `ColorDetectionConfig` dataclass of `services/color_detection.py`
(lines 32-49); the HSV table is the dict as an association list in insertion
order.  Drawing-only fields are omitted (they have no detection effect). -/
structure ColorDetectionConfig where
  hsv_ranges : List (String × HSVRange)
  min_area : Nat := 800
  max_area : Nat := 10000000
  aspect_min : Rat := 0.5
  aspect_max : Rat := 2.2
  solidity_min : Rat := 0.85
  blur_kernel_size : Nat := 3
  morph_kernel_size : Nat := 5
  draw_bbox : Bool := false
  draw_labels : Bool := true

/-- `DEFAULT_COLOR_RANGES` of `services/color_detection.py` (lines 53-61);
identical to the `hsv_ranges` default of `config/settings.py`. -/
def defaultColorRanges : List (String × HSVRange) :=
  [("verde_lima", ((38, 80, 80), (75, 255, 255))),
   ("verde", ((30, 60, 60), (85, 255, 255))),
   ("amarillo", ((20, 120, 120), (35, 255, 255))),
   ("magenta", ((140, 80, 80), (175, 255, 255))),
   ("azul", ((95, 80, 80), (130, 255, 255))),
   ("naranja", ((5, 120, 120), (20, 255, 255))),
   ("cian", ((80, 80, 80), (100, 255, 255)))]

/-- `create_default_color_config()` (services/color_detection.py
lines 240-257): the configuration the demo entry point uses.  Its detection
thresholds coincide with the `ColorDetectionConfig` defaults of
`config/settings.py` (lines 55-78), which is what `NopalDetector.__init__`
passes to the color service. -/
def createDefaultColorConfig : ColorDetectionConfig :=
  { hsv_ranges := defaultColorRanges
    min_area := 800
    max_area := 1000000
    aspect_min := 0.5
    aspect_max := 2.2
    solidity_min := 0.85
    blur_kernel_size := 3
    morph_kernel_size := 5
    draw_bbox := false
    draw_labels := true }

/-- `aspect_ratio = w / max(1, h)` of `_detect_color` (line 161). -/
def colorContourAspect (c : ColorContour) : Rat :=
  (c.w : Rat) / ((max 1 c.h : Nat) : Rat)

/-- `solidity = area / max(1.0, hull_area)` of `_detect_color`
(line 168). -/
def colorContourSolidity (c : ColorContour) : Rat :=
  c.area / max 1 c.hullArea

/-- The contour filter of `_detect_color` (lines 153-170): skip when
`area < min_area or area > max_area`; skip unless
`aspect_min <= aspect_ratio <= aspect_max`; skip when
`solidity < solidity_min`. -/
def contourAccepted (cfg : ColorDetectionConfig) (c : ColorContour) : Bool :=
  if c.area < (cfg.min_area : Rat) ∨ (cfg.max_area : Rat) < c.area then false
  else if ¬ (cfg.aspect_min ≤ colorContourAspect c ∧
      colorContourAspect c ≤ cfg.aspect_max) then false
  else decide (cfg.solidity_min ≤ colorContourSolidity c)

/-- The detections list `_detect_color` returns for one named range: one
`(color_name, smooth_contour)` pair per accepted contour, in contour
order. -/
def detectColor (cfg : ColorDetectionConfig) (colorName : String)
    (contours : List ColorContour) : List (String × ColorContour) :=
  (contours.filter (contourAccepted cfg)).map (fun c => (colorName, c))

/-- The per-color loop of `ColorDetectionService.detect_in_frame`
(lines 98-108) together with the side effects of `_detect_color` on
`output_frame` and `mask_global` (lines 176-183): for each named range, the
accepted contours are drawn on the output buffer, their fills are added to the
global mask, the `(name, contour)` pairs extend `all_detections`, and the name
is appended to `colors_found` iff at least one contour was accepted.  Returns
`(all_detections, colors_found, output_frame, mask_global)`. -/
def colorLoop {F : Type} (cfg : ColorDetectionConfig)
    (contoursOf : String × HSVRange → List ColorContour)
    (drawDetection : F → ColorContour → F) :
    List (String × HSVRange) → F → Finset (Nat × Nat) →
      List (String × ColorContour) × List String × F × Finset (Nat × Nat)
  | [], out, mg => ([], [], out, mg)
  | e :: rest, out, mg =>
      let accepted := (contoursOf e).filter (contourAccepted cfg)
      let out1 := accepted.foldl drawDetection out
      let mg1 := accepted.foldl (fun m c => m ∪ c.fill) mg
      let r := colorLoop cfg contoursOf drawDetection rest out1 mg1
      (accepted.map (fun c => (e.1, c)) ++ r.1,
       (if accepted.isEmpty then r.2.1 else e.1 :: r.2.1),
       r.2.2.1, r.2.2.2)

/-- `ColorDetectionService.detect_in_frame` (lines 71-126).  `toHSV` is
`cvtColor(frame, COLOR_BGR2HSV)` (a fresh buffer), `blur` the Gaussian blur
applied to it when `blur_kernel_size > 1`, and `contoursOf hsv entry` the
external contours `findContours` extracts from the thresholded and
morphologically cleaned mask of that named range.  `output_frame` starts as
`frame.copy()`; `mask_global` starts as `np.zeros(...)`; the final mask is
`None` exactly when `mask_global.any()` is false.  The second component of
the result is the caller's frame buffer after the call: the source never
writes to `frame`, so it is returned unchanged. -/
def colorDetectInFrame {F : Type} (cfg : ColorDetectionConfig)
    (toHSV : F → F)
    (blur : F → F)
    (contoursOf : F → String × HSVRange → List ColorContour)
    (drawDetection : F → ColorContour → F)
    (frame : F) :
    ColorDetectionResult F (Finset (Nat × Nat)) ColorContour × F :=
  let outputFrame := frame
  let hsv0 := toHSV frame
  let hsv := if 1 < cfg.blur_kernel_size then blur hsv0 else hsv0
  let r := colorLoop cfg (contoursOf hsv) drawDetection cfg.hsv_ranges
    outputFrame (∅ : Finset (Nat × Nat))
  let finalMask := if r.2.2.2 = ∅ then none else some r.2.2.2
  ({ frame_with_overlay := r.2.2.1
     mask := finalMask
     detections := r.1
     total_detections := r.1.length
     colors_found := r.2.1 }, frame)

/-! ## Keypoint service `detect_in_frame` (services/detection.py
lines 223-303) -/

/-- The whole-frame fallback loop (lines 245-251): iterate over the reference
bank, call `_try_match_and_draw(ref, kp_frame, des_frame, output_frame, None)`
drawing on the output buffer when a match succeeds, keep
`matches_found = max(matches_found, gm)`, and break at the first detection.
`tryRef ref none` stands for the whole `_try_match_and_draw` call for `ref`
with no ROI; `drawPoly` is the overlay/border/label drawing it performs on
success. -/
def globalRefLoop {F Img KP Des H : Type}
    (tryRef : ReferenceData Img KP Des → Option Rect → TryMatchResult H)
    (drawPoly : F → TryMatchResult H → F) :
    List (ReferenceData Img KP Des) → F → Nat →
      F × Nat × Bool × Option H × Option (Finset (Nat × Nat))
  | [], out, m => (out, m, false, none, none)
  | ref :: rest, out, m =>
      let res := tryRef ref none
      let out1 := if res.ok then drawPoly out res else out
      let m1 := max m res.good
      if res.ok then (out1, m1, true, res.homography, res.mask)
      else globalRefLoop tryRef drawPoly rest out1 m1

/-- The running best of the candidate loop (line 263):
`best = {"gm": 0, "H": None, "mask": None}`. -/
structure BestMatch (H : Type) where
  gm : Nat
  homography : Option H
  mask : Option (Finset (Nat × Nat))

/-- The inner reference loop of the candidate branch (lines 276-290): for each
reference, skip when both Hu signatures exist and their log-space L2 distance
exceeds 6.0; otherwise run `_try_match_and_draw` with the ROI (drawing on the
output buffer when it succeeds) and update the best when `ok` and
`gm > best.gm`. -/
def candidateRefLoop {F Img KP Des H : Type}
    (tryRef : ReferenceData Img KP Des → Option Rect → TryMatchResult H)
    (drawPoly : F → TryMatchResult H → F)
    (huDist : List Rat → List Rat → Rat)
    (huRoi : Option (List Rat)) (roi : Rect) :
    List (ReferenceData Img KP Des) → F → BestMatch H → F × BestMatch H
  | [], out, best => (out, best)
  | ref :: rest, out, best =>
      let skip :=
        match ref.hu, huRoi with
        | some hr, some hc => decide (6 < huDist hr hc)
        | _, _ => false
      if skip then candidateRefLoop tryRef drawPoly huDist huRoi roi rest out best
      else
        let res := tryRef ref (some roi)
        let out1 := if res.ok then drawPoly out res else out
        let best1 :=
          if res.ok ∧ best.gm < res.good then
            ⟨res.good, res.homography, res.mask⟩
          else best
        candidateRefLoop tryRef drawPoly huDist huRoi roi rest out1 best1

/-- The outer candidate loop (lines 264-290): crop the ROI, preprocess it,
extract keypoints (skipping the ROI when the descriptors are `None` or fewer
than 8 keypoints were found), compute the ROI's Hu signature, and run the
reference loop.  `roiFeatures r` stands for
`feat.detectAndCompute(preproc_roi, None)` on the cropped, preprocessed ROI
and `roiHu r` for `_compute_hu_moments(cvtColor(roi, COLOR_BGR2GRAY))`. -/
def candidateLoop {F Img KP Des H : Type}
    (roiFeatures : Rect → List KP × Option Des)
    (roiHu : Rect → Option (List Rat))
    (tryRef : Rect → List KP → Des →
      ReferenceData Img KP Des → Option Rect → TryMatchResult H)
    (drawPoly : F → TryMatchResult H → F)
    (huDist : List Rat → List Rat → Rat)
    (bank : List (ReferenceData Img KP Des)) :
    List Rect → F → BestMatch H → F × BestMatch H
  | [], out, best => (out, best)
  | r :: rest, out, best =>
      match roiFeatures r with
      | (kpRoi, desRoi) =>
        match desRoi with
        | none => candidateLoop roiFeatures roiHu tryRef drawPoly huDist bank
            rest out best
        | some d =>
            if kpRoi.isEmpty ∨ kpRoi.length < 8 then
              candidateLoop roiFeatures roiHu tryRef drawPoly huDist bank
                rest out best
            else
              let ob := candidateRefLoop (tryRef r kpRoi d) drawPoly huDist
                (roiHu r) r bank out best
              candidateLoop roiFeatures roiHu tryRef drawPoly huDist bank
                rest ob.1 ob.2

/-- `OpenCVService.detect_in_frame` (lines 223-303), for a non-empty
reference bank.  OpenCV primitives are parameters: `findCands` is
`_find_candidates(frame)` reduced to the bounding rectangles it returns,
`frameFeatures` is `feat.detectAndCompute(preproc, None)` on the preprocessed
whole frame, `tryGlobal`/`tryRoi` stand for the `_try_match_and_draw` calls,
and `drawPoly`, `drawFew`, `drawInsufficient`, `drawInfo` for the drawing
helpers, each consuming and returning the output buffer it writes to.
`output_frame` starts as `frame.copy()`; the second component of the result
is the caller's frame buffer after the call, which the source never writes
to. -/
def kpDetectInFrame {F Img KP Des H : Type}
    (bank : List (ReferenceData Img KP Des))
    (findCands : F → List Rect)
    (frameFeatures : F → List KP × Option Des)
    (tryGlobal : List KP → Des →
      ReferenceData Img KP Des → Option Rect → TryMatchResult H)
    (roiFeatures : Rect → List KP × Option Des)
    (roiHu : Rect → Option (List Rat))
    (tryRoi : Rect → List KP → Des →
      ReferenceData Img KP Des → Option Rect → TryMatchResult H)
    (huDist : List Rat → List Rat → Rat)
    (drawPoly : F → TryMatchResult H → F)
    (drawFew : F → F)
    (drawInsufficient : F → F)
    (drawInfo : F → Nat → F)
    (frame : F) :
    DetectionResult F (Finset (Nat × Nat)) H × F :=
  let outputFrame := frame
  let candidates := findCands frame
  let result :=
    if candidates.isEmpty then
      match frameFeatures frame with
      | (kpFrame, desFrame) =>
        match desFrame with
        | none =>
            DetectionResult.mk (drawFew outputFrame) none 0 false none
        | some d =>
            if kpFrame.isEmpty ∨ kpFrame.length < 8 then
              DetectionResult.mk (drawFew outputFrame) none 0 false none
            else
              let lr := globalRefLoop (tryGlobal kpFrame d) drawPoly bank
                outputFrame 0
              let out1 :=
                if lr.2.2.1 then drawInfo lr.1 lr.2.1
                else drawInsufficient lr.1
              DetectionResult.mk out1 lr.2.2.2.2 lr.2.1 lr.2.2.1 lr.2.2.2.1
    else
      let cb := candidateLoop roiFeatures roiHu tryRoi drawPoly huDist bank
        candidates outputFrame ⟨0, none, none⟩
      match cb.2.homography with
      | some hm =>
          DetectionResult.mk (drawInfo cb.1 cb.2.gm) cb.2.mask cb.2.gm true
            (some hm)
      | none =>
          DetectionResult.mk (drawInsufficient cb.1) none cb.2.gm false none
  (result, frame)

/-! ## Stream processing (core/detector.py, `_process_stream` lines 201-259
and `_process_source` lines 176-199) -/

/-- The read-detect-emit loop of `NopalDetector._process_stream`, reduced to
its control flow: `stream` is the sequence of frames the source will yield
before `read_frame` returns `None`; `detect f` is the
`_detect_with_mode(frame, detector_mode)` call, whose unexpected failure is an
`Except.error` — the loop body contains no handler for it, so it ends the
recursion; `notify r` is `output_manager.notify_result(...)` followed by the
`should_exit` check.  Returns the results emitted to the observers in order,
paired with `some e` when an exception escaped the loop. -/
def processStream {F R E : Type} (detect : F → Except E R)
    (notify : R → Bool) : List F → List R × Option E
  | [] => ([], none)
  | f :: rest =>
      match detect f with
      | Except.error e => ([], some e)
      | Except.ok r =>
          if notify r then ([r], none)
          else
            let t := processStream detect notify rest
            (r :: t.1, t.2)

/-- `NopalDetector._process_source` (lines 176-199): dispatch on
`is_stream`; any exception escaping `_process_stream` or
`_process_single_frame` is caught by its `except` clause, logged, and turned
into `False`.  For a single image, `currentFrame` is
`source_manager.current_frame` (`None` makes `_process_single_frame` return
`False`). -/
def processSource {F R E : Type} (detect : F → Except E R)
    (notify : R → Bool) (isStream : Bool) (stream : List F)
    (currentFrame : Option F) : Bool :=
  if isStream then
    match (processStream detect notify stream).2 with
    | some _ => false
    | none => true
  else
    match currentFrame with
    | none => false
    | some f =>
        match detect f with
        | Except.error _ => false
        | Except.ok r =>
            let _ := notify r
            true

/-! ## Theorems -/

/-- C1: For every frame processed in AUTO mode, if the keypoint pipeline
reports a hit on that frame, the orchestrator returns exactly the keypoint
pipeline's result (same annotated frame, mask, hit flag and match count)
without ever invoking the color detector on that frame, so the AUTO result
equals the KEYPOINT_ONLY result for the same frame. -/
theorem auto_hit_returns_keypoint_result {F M H C : Type}
    (orbDetect : F → DetectionResult F M H)
    (colorDetect : F → ColorDetectionResult F M C)
    (frame : F)
    (h : (orbDetect frame).has_detection = true) :
    detectWithMode orbDetect colorDetect "auto" frame
      = detectWithMode orbDetect colorDetect "orb" frame
    ∧ (detectWithMode orbDetect colorDetect "auto" frame).2 = 0 := by
  refine ⟨?_, ?_⟩ <;> simp [detectWithMode, h]

/-- Witness for C1 at a concrete frame and concrete detector outcomes. -/
theorem auto_hit_returns_keypoint_result_witness :
    detectWithMode
        (fun _ : Nat =>
          ({ frame_with_overlay := 1, mask := some 2, matches_found := 25,
             has_detection := true } : DetectionResult Nat Nat Nat))
        (fun _ : Nat =>
          ({ frame_with_overlay := 9, mask := none, detections := [],
             total_detections := 0, colors_found := [] } :
            ColorDetectionResult Nat Nat Nat))
        "auto" 0
      = detectWithMode
        (fun _ : Nat =>
          ({ frame_with_overlay := 1, mask := some 2, matches_found := 25,
             has_detection := true } : DetectionResult Nat Nat Nat))
        (fun _ : Nat =>
          ({ frame_with_overlay := 9, mask := none, detections := [],
             total_detections := 0, colors_found := [] } :
            ColorDetectionResult Nat Nat Nat))
        "orb" 0
    ∧ (detectWithMode
        (fun _ : Nat =>
          ({ frame_with_overlay := 1, mask := some 2, matches_found := 25,
             has_detection := true } : DetectionResult Nat Nat Nat))
        (fun _ : Nat =>
          ({ frame_with_overlay := 9, mask := none, detections := [],
             total_detections := 0, colors_found := [] } :
            ColorDetectionResult Nat Nat Nat))
        "auto" 0).2 = 0 :=
  auto_hit_returns_keypoint_result _ _ 0 rfl

/-- C2: For every frame processed in AUTO mode on which the keypoint pipeline
reports no hit: if the color pipeline finds at least one detection, the
orchestrator returns the color pipeline's result (equal to the COLOR_ONLY
result on the same frame, with hit true and the color detection count);
otherwise it returns the original failed keypoint result with hit=false,
preserving the keypoint pipeline's good-match count in the returned count
field. -/
theorem auto_fallback_color_or_keypoint {F M H C : Type}
    (orbDetect : F → DetectionResult F M H)
    (colorDetect : F → ColorDetectionResult F M C)
    (frame : F)
    (h : (orbDetect frame).has_detection = false) :
    (0 < (colorDetect frame).total_detections →
      detectWithMode orbDetect colorDetect "auto" frame
        = detectWithMode orbDetect colorDetect "color" frame
      ∧ (detectWithMode orbDetect colorDetect "auto" frame).1.has_detection
          = true
      ∧ (detectWithMode orbDetect colorDetect "auto" frame).1.count
          = (colorDetect frame).total_detections)
    ∧ ((colorDetect frame).total_detections = 0 →
      (detectWithMode orbDetect colorDetect "auto" frame).1
        = ⟨(orbDetect frame).frame_with_overlay, (orbDetect frame).mask,
            false, (orbDetect frame).matches_found⟩) := by
  constructor
  · intro hc
    have hd : decide (0 < (colorDetect frame).total_detections) = true :=
      decide_eq_true hc
    refine ⟨?_, ?_, ?_⟩ <;> simp [detectWithMode, h, hc, hd]
  · intro hc
    have hc0 : ¬ (0 < (colorDetect frame).total_detections) := by omega
    simp [detectWithMode, h, hc0]

/-- Witness for C2 at a concrete frame: keypoint miss with 9 good matches,
color fallback with 3 detections. -/
theorem auto_fallback_color_or_keypoint_witness :
    detectWithMode
        (fun _ : Nat =>
          ({ frame_with_overlay := 1, mask := none, matches_found := 9,
             has_detection := false } : DetectionResult Nat Nat Nat))
        (fun _ : Nat =>
          ({ frame_with_overlay := 4, mask := some 5,
             detections := [("verde", 0), ("azul", 1), ("cian", 2)],
             total_detections := 3, colors_found := ["verde", "azul", "cian"] } :
            ColorDetectionResult Nat Nat Nat))
        "auto" 0
      = detectWithMode
        (fun _ : Nat =>
          ({ frame_with_overlay := 1, mask := none, matches_found := 9,
             has_detection := false } : DetectionResult Nat Nat Nat))
        (fun _ : Nat =>
          ({ frame_with_overlay := 4, mask := some 5,
             detections := [("verde", 0), ("azul", 1), ("cian", 2)],
             total_detections := 3, colors_found := ["verde", "azul", "cian"] } :
            ColorDetectionResult Nat Nat Nat))
        "color" 0 :=
  ((auto_fallback_color_or_keypoint _ _ 0 rfl).1 (by decide)).1

/-- C8 counterexample: with a stream whose first frame makes detection raise
and whose second frame would succeed, the read-detect-emit loop does not
continue to the next frame — nothing is emitted and the invocation reports
failure — contradicting the claim that a recoverable per-frame condition
never aborts a stream. -/
theorem stream_error_claim_counterexample :
    processStream
        (fun n : Nat => if n = 0 then Except.error () else Except.ok n)
        (fun _ => false) [0, 1] = ([], some ())
    ∧ processSource
        (fun n : Nat => if n = 0 then Except.error () else Except.ok n)
        (fun _ => false) true [0, 1] none = false := by
  exact ⟨rfl, rfl⟩

/-- C8 (amended): an unexpected failure while processing one frame is not
caught inside the streaming loop: it propagates, is caught and logged one
level up in `_process_source`, and aborts the stream — no later frame is
processed or emitted and the invocation returns failure; for single-image
input the failure likewise surfaces as a failure of the whole invocation. -/
theorem stream_error_aborts {F R E : Type} (detect : F → Except E R)
    (notify : R → Bool) (e : E) (f : F) (rest : List F)
    (h : detect f = Except.error e) :
    processStream detect notify (f :: rest) = ([], some e)
    ∧ processSource detect notify true (f :: rest) none = false
    ∧ processSource detect notify false [] (some f) = false := by
  refine ⟨?_, ?_, ?_⟩
  · simp [processStream, h]
  · simp [processSource, processStream, h]
  · simp [processSource, h]

/-- Witness for C8's amended theorem at a concrete failing detector. -/
theorem stream_error_aborts_witness :
    processStream
        (fun _ : Nat => (Except.error "boom" : Except String Nat))
        (fun _ => true) [7] = ([], some "boom")
    ∧ processSource
        (fun _ : Nat => (Except.error "boom" : Except String Nat))
        (fun _ => true) true [7] none = false
    ∧ processSource
        (fun _ : Nat => (Except.error "boom" : Except String Nat))
        (fun _ => true) false [] (some 7) = false :=
  stream_error_aborts _ _ "boom" 7 [] rfl

/-- Helper: every replicated pair that passes the ratio test is counted. -/
theorem goodCount_replicate {rt m n : Rat} (k : Nat) (h : m < rt * n) :
    goodCount rt (List.replicate k [m, n]) = k := by
  induction k with
  | zero => rfl
  | succ k ih =>
      simp only [goodCount, List.replicate_succ, List.filter] at ih ⊢
      rw [isGoodPair, decide_eq_true h]
      simpa using ih

/-- Helper: the IoU gate accepts when the rasterized polygon coincides with
the rectangle's pixel set and the threshold is at most 1. -/
theorem iouPolyRectOk_self (r : Rect) (th : Rat) (hth : th ≤ 1) :
    iouPolyRectOk (rectPixels r) r th = true := by
  have hmem : (r.x, r.y) ∈ rectPixels r := by
    simp [rectPixels, Finset.mem_product]
  have hcard : (rectPixels r).card ≠ 0 :=
    Finset.card_ne_zero_of_mem hmem
  simp only [iouPolyRectOk, Finset.inter_self, Finset.union_self,
    if_neg hcard, decide_eq_true_eq]
  rw [div_self (by exact_mod_cast hcard)]
  exact hth

/-- Helper: a concrete region match that the code accepts: the default
configuration, a 1×450 ROI (perimeter 902), 18 good matches, a successful
homography fit, and a projected quadrilateral covering exactly the ROI
rectangle. -/
theorem tryMatch_demo_ok :
    (tryMatchAndDraw defaultORBConfig (List.replicate 18 [1, 2])
      (some ⟨0, 0, 1, 450⟩) (some ()) (rectPixels ⟨0, 0, 1, 450⟩)).ok
      = true := by
  have hg : goodCount defaultORBConfig.ratio_threshold
      (List.replicate 18 [(1 : Rat), 2]) = 18 :=
    goodCount_replicate 18 (by norm_num [defaultORBConfig])
  have hfloor : Int.floor ((2 : Rat) / 100 *
      ((regionPerimeter ⟨0, 0, 1, 450⟩ : Nat) : Rat)) = 18 := by
    norm_num [regionPerimeter]
  have hmin : adaptiveMinMatches defaultORBConfig.min_matches
      (some ⟨0, 0, 1, 450⟩) = 18 := by
    simp only [adaptiveMinMatches, hfloor]
    norm_num [defaultORBConfig]
  have hiou : iouPolyRectOk (rectPixels ⟨0, 0, 1, 450⟩) ⟨0, 0, 1, 450⟩
      (3 / 10) = true :=
    iouPolyRectOk_self _ _ (by norm_num)
  simp only [tryMatchAndDraw, hg, hmin, lt_self_iff_false, if_false]
  simp [hiou]

/-- C3 counterexample: with the default configuration, a 1×450 ROI has
perimeter 902 and `0.02 × 902 = 18.04`, so the claim's region minimum
`max(base_min_matches, 0.02 × perimeter)` exceeds 18; yet the code accepts
the attempt with exactly 18 good matches (it compares against
`max(12, base, int(0.02 * peri)) = 18` — the truncation drops the
fractional part), so a good-match count strictly below the claim's minimum
still yields a detection. -/
theorem match_gate_claim_counterexample :
    goodCount defaultORBConfig.ratio_threshold
        (List.replicate 18 [1, 2]) = 18
    ∧ ((18 : Rat) < max (defaultORBConfig.min_matches : Rat)
        (2 / 100 * ((regionPerimeter ⟨0, 0, 1, 450⟩ : Nat) : Rat)))
    ∧ (tryMatchAndDraw defaultORBConfig (List.replicate 18 [1, 2])
        (some ⟨0, 0, 1, 450⟩) (some ()) (rectPixels ⟨0, 0, 1, 450⟩)).ok
        = true := by
  refine ⟨goodCount_replicate 18 (by norm_num [defaultORBConfig]), ?_,
    tryMatch_demo_ok⟩
  norm_num [defaultORBConfig, regionPerimeter]

/-- C3 (amended): a descriptor correspondence is counted as good iff its
best-match distance is strictly less than `ratio_threshold` (default 0.75)
times the second-best distance, and the attempt yields no detection whenever
the number of good matches is below
`max(12, base_min_matches, int(0.02 × region_perimeter))` (integer
truncation; perimeter = 2·(w+h)) when operating on a region, or below the
flat `base_min_matches` (default 18) when operating on the whole frame; in
particular with a good-match count one below this minimum, detection fails,
and the failed attempt still reports the good-match count. -/
theorem match_gate_amended {H : Type} (cfg : ORBConfig)
    (knnPairs : List (List Rat)) (fit : Option H)
    (poly : Finset (Nat × Nat)) :
    (∀ m n : Rat, isGoodPair cfg.ratio_threshold [m, n] = true ↔
      m < cfg.ratio_threshold * n)
    ∧ (∀ r : Rect, adaptiveMinMatches cfg.min_matches (some r)
        = max 12 (max cfg.min_matches
            (Int.toNat (Int.floor
              ((2 : Rat) / 100 * ((regionPerimeter r : Nat) : Rat))))))
    ∧ adaptiveMinMatches cfg.min_matches none = cfg.min_matches
    ∧ defaultORBConfig.min_matches = 18
    ∧ defaultORBConfig.ratio_threshold = 75 / 100
    ∧ (∀ roiBox : Option Rect,
        goodCount cfg.ratio_threshold knnPairs
            < adaptiveMinMatches cfg.min_matches roiBox →
          (tryMatchAndDraw cfg knnPairs roiBox fit poly).ok = false
          ∧ (tryMatchAndDraw cfg knnPairs roiBox fit poly).good
              = goodCount cfg.ratio_threshold knnPairs) := by
  refine ⟨?_, fun r => rfl, rfl, rfl, rfl, ?_⟩
  · intro m n
    simp [isGoodPair]
  · intro roiBox hlt
    simp [tryMatchAndDraw, if_pos hlt]

/-- Witness for C3's amended theorem: with no good matches and the default
whole-frame minimum of 18, the attempt fails. -/
theorem match_gate_amended_witness :
    (tryMatchAndDraw defaultORBConfig ([] : List (List Rat)) none
      (some ()) (∅ : Finset (Nat × Nat))).ok = false :=
  ((match_gate_amended defaultORBConfig [] (some ()) ∅).2.2.2.2.2 none
    (by decide)).1

/-- C4: For every region-based match in which a homography is successfully
fitted, the result is reported as no-detection unless the
Intersection-over-Union between the projected reference quadrilateral
(shifted into global coordinates) and the region's bounding rectangle is at
least 0.3; a numerically valid homography whose IoU with the region
rectangle is below 0.3 is never reported as a detection. -/
theorem region_iou_gate {H : Type} (cfg : ORBConfig)
    (knnPairs : List (List Rat)) (r : Rect) (fit : Option H)
    (poly : Finset (Nat × Nat)) :
    ((tryMatchAndDraw cfg knnPairs (some r) fit poly).ok = true →
      iouPolyRectOk poly r (3 / 10) = true)
    ∧ (iouPolyRectOk poly r (3 / 10) = false →
      (tryMatchAndDraw cfg knnPairs (some r) fit poly).ok = false)
    ∧ (iouPolyRectOk poly r (3 / 10) = true ↔
      ((poly ∪ rectPixels r).card ≠ 0 ∧
        (3 : Rat) / 10 ≤ ((poly ∩ rectPixels r).card : Rat)
          / ((poly ∪ rectPixels r).card : Rat))) := by
  refine ⟨?_, ?_, ?_⟩
  · intro hok
    by_cases hlt : goodCount cfg.ratio_threshold knnPairs
        < adaptiveMinMatches cfg.min_matches (some r)
    · simp [tryMatchAndDraw, if_pos hlt] at hok
    · cases fit with
      | none => simp [tryMatchAndDraw, if_neg hlt] at hok
      | some hm =>
          by_cases hiou : iouPolyRectOk poly r (3 / 10) = true
          · exact hiou
          · rw [Bool.not_eq_true] at hiou
            simp [tryMatchAndDraw, if_neg hlt, hiou] at hok
  · intro hiou
    by_cases hlt : goodCount cfg.ratio_threshold knnPairs
        < adaptiveMinMatches cfg.min_matches (some r)
    · simp [tryMatchAndDraw, if_pos hlt]
    · cases fit with
      | none => simp [tryMatchAndDraw, if_neg hlt]
      | some hm => simp [tryMatchAndDraw, if_neg hlt, hiou]
  · by_cases hu : (poly ∪ rectPixels r).card = 0
    · simp [iouPolyRectOk, hu]
    · simp [iouPolyRectOk, hu]

/-- Witness for C4 at the concrete accepted region match of
`tryMatch_demo_ok`. -/
theorem region_iou_gate_witness :
    iouPolyRectOk (rectPixels ⟨0, 0, 1, 450⟩) ⟨0, 0, 1, 450⟩ (3 / 10)
      = true :=
  (region_iou_gate defaultORBConfig (List.replicate 18 [1, 2])
    ⟨0, 0, 1, 450⟩ (some ()) (rectPixels ⟨0, 0, 1, 450⟩)).1
    tryMatch_demo_ok

/-- C5: For every path given to the single-reference load operation, loading
fails with a reference-load error exactly when the file is
missing/unreadable or the image yields fewer than 8 keypoints or null
descriptors; whenever loading succeeds, the returned Reference has at least
8 keypoints and non-null descriptors — never a silent empty result. -/
theorem load_single_reference_spec {Img KP Des : Type}
    (pathExists : String → Bool) (imread : String → Option Img)
    (toGray : Img → Img) (detectAndCompute : Img → List KP × Option Des)
    (computeHu : Img → Option (List Rat)) (makeEdgeMap : Img → Img)
    (dims : Img → Nat × Nat) (baseName : String → String)
    (refPath : String) :
    ((∃ e, loadSingleReference pathExists imread toGray detectAndCompute
        computeHu makeEdgeMap dims baseName refPath = Except.error e) ↔
      (pathExists refPath = false ∨ imread refPath = none ∨
        ∃ img, imread refPath = some img ∧
          ((detectAndCompute (toGray img)).2 = none ∨
            (detectAndCompute (toGray img)).1.length < 8)))
    ∧ (∀ rd, loadSingleReference pathExists imread toGray detectAndCompute
        computeHu makeEdgeMap dims baseName refPath = Except.ok rd →
        8 ≤ rd.keypoints.length ∧ rd.descriptors ≠ none) := by
  cases hpe : pathExists refPath with
  | false =>
      constructor
      · simp [loadSingleReference, hpe]
      · intro rd hrd
        simp [loadSingleReference, hpe] at hrd
  | true =>
      cases himg : imread refPath with
      | none =>
          constructor
          · simp [loadSingleReference, hpe, himg]
          · intro rd hrd
            simp [loadSingleReference, hpe, himg] at hrd
      | some img =>
          cases hdes : (detectAndCompute (toGray img)).2 with
          | none =>
              constructor
              · simp [loadSingleReference, hpe, himg, hdes]
              · intro rd hrd
                simp [loadSingleReference, hpe, himg, hdes] at hrd
          | some d =>
              by_cases hlen : (detectAndCompute (toGray img)).1.length < 8
              · constructor
                · simp [loadSingleReference, hpe, himg, hdes, hlen]
                · intro rd hrd
                  simp [loadSingleReference, hpe, himg, hdes, hlen] at hrd
              · constructor
                · simp [loadSingleReference, hpe, himg, hdes, hlen]
                · intro rd hrd
                  simp only [loadSingleReference, hpe, himg, hdes, hlen,
                    Bool.true_eq_false, Bool.false_eq_true, if_false,
                    Option.isNone_some, or_self, or_false,
                    Except.ok.injEq] at hrd
                  subst hrd
                  exact ⟨not_lt.mp hlen, by simp [hdes]⟩

/-- Witness for C5 at a concrete environment in which loading succeeds with
nine keypoints. -/
theorem load_single_reference_spec_witness :
    8 ≤ ((⟨(), (), List.range 9, some (), 1, 1, none, (),
      "nopal_ref.jpg"⟩ : ReferenceData Unit Nat Unit)).keypoints.length
    ∧ ((⟨(), (), List.range 9, some (), 1, 1, none, (),
      "nopal_ref.jpg"⟩ : ReferenceData Unit Nat Unit)).descriptors
        ≠ none :=
  (load_single_reference_spec (fun _ => true) (fun _ => some ()) id
    (fun _ => (List.range 9, some ())) (fun _ => none) id (fun _ => (1, 1))
    id "nopal_ref.jpg").2 _ rfl

/-- C6: For every contour extracted by the Region Proposer from the
saturation mask of a frame, the contour becomes a Candidate Region if and
only if its area is at least 800 px², its bounding-box width/height aspect
ratio lies in [0.5, 2.0], and its circularity 4π·area/perimeter² (with the
source's constant 3.14159265 for π) lies in [0.55, 0.95]; contours of zero
perimeter are rejected. -/
theorem find_candidates_accept_iff (cs : List ContourMeas)
    (c : ContourMeas) :
    (c.x, c.y, c.w, c.h, c) ∈ findCandidates cs ↔
      (c ∈ cs ∧ 800 ≤ c.area ∧ c.peri ≠ 0 ∧
        (0.5 : Rat) ≤ contourAspect c ∧ contourAspect c ≤ 2 ∧
        (0.55 : Rat) ≤ circularity c ∧ circularity c ≤ (0.95 : Rat)) := by
  rw [findCandidates, List.mem_filterMap]
  constructor
  · rintro ⟨b, hb, hfb⟩
    by_cases h1 : b.area < 800
    · simp [h1] at hfb
    · by_cases h2 : b.peri = 0
      · simp [h1, h2] at hfb
      · by_cases h3 : (0.5 : Rat) ≤ contourAspect b ∧ contourAspect b ≤ 2 ∧
            (0.55 : Rat) ≤ circularity b ∧ circularity b ≤ (0.95 : Rat)
        · rw [if_neg h1, if_neg h2, if_pos h3] at hfb
          injection hfb with he
          have hbc : b = c := congrArg (fun t => t.2.2.2.2) he
          subst hbc
          exact ⟨hb, not_lt.mp h1, h2, h3.1, h3.2.1, h3.2.2.1, h3.2.2.2⟩
        · rw [if_neg h1, if_neg h2, if_neg h3] at hfb
          exact absurd hfb (by simp)
  · rintro ⟨hc, ha, hp, h3, h4, h5, h6⟩
    refine ⟨c, hc, ?_⟩
    rw [if_neg (not_lt.mpr ha), if_neg hp, if_pos ⟨h3, h4, h5, h6⟩]

/-- C7: In the color segmentation detector, for every named HSV range and
every external contour of its cleaned binary mask, the contour is accepted
if and only if its area lies within [min_area, max_area] (defaults
800..1,000,000), its bounding-box width/height aspect ratio lies within
[aspect_min, aspect_max] (defaults 0.5..2.2), and its solidity (contour
area ÷ convex-hull area) is at least solidity_min (default 0.85).  The
source guards the two quotients with `max(1, h)` and `max(1.0, hull_area)`;
on non-degenerate contours (`h ≥ 1`, `hull_area ≥ 1`) these are exactly
`w / h` and `area / hull_area`. -/
theorem color_contour_accept_iff (cfg : ColorDetectionConfig)
    (name : String) (contours : List ColorContour) (c : ColorContour) :
    ((name, c) ∈ detectColor cfg name contours ↔
      (c ∈ contours ∧ (cfg.min_area : Rat) ≤ c.area ∧
        c.area ≤ (cfg.max_area : Rat) ∧
        cfg.aspect_min ≤ colorContourAspect c ∧
        colorContourAspect c ≤ cfg.aspect_max ∧
        cfg.solidity_min ≤ colorContourSolidity c))
    ∧ (1 ≤ c.h → colorContourAspect c = (c.w : Rat) / (c.h : Rat))
    ∧ (1 ≤ c.hullArea → colorContourSolidity c = c.area / c.hullArea)
    ∧ createDefaultColorConfig.min_area = 800
    ∧ createDefaultColorConfig.max_area = 1000000
    ∧ createDefaultColorConfig.aspect_min = 0.5
    ∧ createDefaultColorConfig.aspect_max = 2.2
    ∧ createDefaultColorConfig.solidity_min = 0.85 := by
  refine ⟨?_, ?_, ?_, rfl, rfl, rfl, rfl, rfl⟩
  · have hmem : (name, c) ∈ detectColor cfg name contours ↔
        c ∈ contours.filter (contourAccepted cfg) := by
      constructor
      · intro hm
        rcases List.mem_map.mp hm with ⟨a, ha, hae⟩
        injection hae with h1 h2
        subst h2
        exact ha
      · intro hm
        exact List.mem_map.mpr ⟨c, hm, rfl⟩
    rw [hmem, List.mem_filter]
    have hacc : contourAccepted cfg c = true ↔
        ((cfg.min_area : Rat) ≤ c.area ∧ c.area ≤ (cfg.max_area : Rat) ∧
          cfg.aspect_min ≤ colorContourAspect c ∧
          colorContourAspect c ≤ cfg.aspect_max ∧
          cfg.solidity_min ≤ colorContourSolidity c) := by
      by_cases h1 : c.area < (cfg.min_area : Rat) ∨ (cfg.max_area : Rat) < c.area
      · rw [contourAccepted, if_pos h1]
        simp only [Bool.false_eq_true, false_iff]
        rintro ⟨ha, hb, -⟩
        rcases h1 with h | h
        · exact absurd ha (not_le.mpr h)
        · exact absurd hb (not_le.mpr h)
      · push_neg at h1
        by_cases h2 : cfg.aspect_min ≤ colorContourAspect c ∧
            colorContourAspect c ≤ cfg.aspect_max
        · rw [contourAccepted, if_neg (by push_neg; exact h1),
            if_neg (by simpa using h2)]
          simp only [decide_eq_true_eq]
          constructor
          · intro hs
            exact ⟨h1.1, h1.2, h2.1, h2.2, hs⟩
          · rintro ⟨-, -, -, -, hs⟩
            exact hs
        · rw [contourAccepted, if_neg (by push_neg; exact h1), if_pos h2]
          simp only [Bool.false_eq_true, false_iff]
          rintro ⟨-, -, h3, h4, -⟩
          exact h2 ⟨h3, h4⟩
    rw [hacc]
  · intro hh
    rw [colorContourAspect, max_eq_right hh]
  · intro hh
    rw [colorContourSolidity, max_eq_right hh]

/-- Witness for C7: a 30×30 contour of area 1000 equal to its hull is
accepted by the default configuration, and its clamped aspect ratio equals
the plain `w / h`. -/
theorem color_contour_accept_iff_witness :
    ("verde", (⟨1000, 0, 0, 30, 30, 1000, 40, {(0, 0)}⟩ : ColorContour))
        ∈ detectColor createDefaultColorConfig "verde"
          [⟨1000, 0, 0, 30, 30, 1000, 40, {(0, 0)}⟩]
    ∧ colorContourAspect (⟨1000, 0, 0, 30, 30, 1000, 40, {(0, 0)}⟩ :
        ColorContour) = (30 : Rat) / 30 :=
  ⟨(color_contour_accept_iff createDefaultColorConfig "verde"
      [⟨1000, 0, 0, 30, 30, 1000, 40, {(0, 0)}⟩]
      ⟨1000, 0, 0, 30, 30, 1000, 40, {(0, 0)}⟩).1.mpr
    ⟨by simp,
      by norm_num [createDefaultColorConfig],
      by norm_num [createDefaultColorConfig],
      by norm_num [createDefaultColorConfig, colorContourAspect],
      by norm_num [createDefaultColorConfig, colorContourAspect],
      by norm_num [createDefaultColorConfig, colorContourSolidity]⟩,
    (color_contour_accept_iff createDefaultColorConfig "verde"
      [⟨1000, 0, 0, 30, 30, 1000, 40, {(0, 0)}⟩]
      ⟨1000, 0, 0, 30, 30, 1000, 40, {(0, 0)}⟩).2.1 (by norm_num)⟩

/-- Helper: the global mask accumulated by the per-color loop is the union
of the fills of the returned detections over the initial mask. -/
theorem colorLoop_mask_eq {F : Type} (cfg : ColorDetectionConfig)
    (cof : String × HSVRange → List ColorContour)
    (draw : F → ColorContour → F) (ranges : List (String × HSVRange)) :
    ∀ (out : F) (mg : Finset (Nat × Nat)),
      (colorLoop cfg cof draw ranges out mg).2.2.2
        = (colorLoop cfg cof draw ranges out mg).1.foldl
            (fun acc p => acc ∪ p.2.fill) mg := by
  induction ranges with
  | nil => intro out mg; rfl
  | cons e rest ih =>
      intro out mg
      simp only [colorLoop, List.foldl_append, List.foldl_map]
      exact ih _ _

/-- Helper: a color name is recorded in `colors_found` by the per-color loop
iff some detection carries it. -/
theorem colorLoop_colors_iff {F : Type} (cfg : ColorDetectionConfig)
    (cof : String × HSVRange → List ColorContour)
    (draw : F → ColorContour → F) (ranges : List (String × HSVRange)) :
    ∀ (out : F) (mg : Finset (Nat × Nat)) (name : String),
      (name ∈ (colorLoop cfg cof draw ranges out mg).2.1 ↔
        ∃ c, (name, c) ∈ (colorLoop cfg cof draw ranges out mg).1) := by
  induction ranges with
  | nil => intro out mg name; simp [colorLoop]
  | cons e rest ih =>
      intro out mg name
      by_cases he : ((cof e).filter (contourAccepted cfg)).isEmpty
      · have hemp : (cof e).filter (contourAccepted cfg) = [] := by
          simpa using he
        simp only [colorLoop, hemp, List.isEmpty_nil, if_true,
          List.map_nil, List.nil_append]
        exact ih _ _ name
      · simp only [colorLoop, he, Bool.false_eq_true, if_false]
        constructor
        · intro h
          rcases List.mem_cons.mp h with h | h
          · subst h
            have hne : (cof e).filter (contourAccepted cfg) ≠ [] := by
              simpa using he
            obtain ⟨a, ha⟩ := List.exists_mem_of_ne_nil _ hne
            exact ⟨a, List.mem_append_left _
              (List.mem_map.mpr ⟨a, ha, rfl⟩)⟩
          · obtain ⟨c, hc⟩ := (ih _ _ name).mp h
            exact ⟨c, List.mem_append_right _ hc⟩
        · rintro ⟨c, hc⟩
          rcases List.mem_append.mp hc with hc | hc
          · rcases List.mem_map.mp hc with ⟨a, _, hae⟩
            injection hae with h1 _
            exact List.mem_cons.mpr (Or.inl h1.symm)
          · exact List.mem_cons.mpr (Or.inr ((ih _ _ name).mpr ⟨c, hc⟩))

/-- Helper: every detection the per-color loop returns carries a contour
that came from `findContours` on some configured range. -/
theorem colorLoop_detections_mem {F : Type} (cfg : ColorDetectionConfig)
    (cof : String × HSVRange → List ColorContour)
    (draw : F → ColorContour → F) (ranges : List (String × HSVRange)) :
    ∀ (out : F) (mg : Finset (Nat × Nat)) (p : String × ColorContour),
      p ∈ (colorLoop cfg cof draw ranges out mg).1 →
        ∃ e, e ∈ ranges ∧ p.2 ∈ cof e := by
  induction ranges with
  | nil => intro out mg p hp; simp [colorLoop] at hp
  | cons e rest ih =>
      intro out mg p hp
      simp only [colorLoop] at hp
      rcases List.mem_append.mp hp with hp | hp
      · rcases List.mem_map.mp hp with ⟨a, ha, hae⟩
        refine ⟨e, List.mem_cons_self _ _, ?_⟩
        rw [← hae]
        exact (List.mem_filter.mp ha).1
      · obtain ⟨e2, he2, hmem⟩ := ih _ _ p hp
        exact ⟨e2, List.mem_cons_of_mem _ he2, hmem⟩

/-- Helper: the fold of fill unions is empty iff the seed and every fill
is. -/
theorem foldl_union_fill_eq_empty (ds : List (String × ColorContour)) :
    ∀ acc : Finset (Nat × Nat),
      (ds.foldl (fun m p => m ∪ p.2.fill) acc = ∅ ↔
        acc = ∅ ∧ ∀ p ∈ ds, p.2.fill = ∅) := by
  induction ds with
  | nil => simp
  | cons p rest ih =>
      intro acc
      rw [List.foldl_cons, ih]
      simp only [Finset.union_eq_empty, List.forall_mem_cons]
      tauto

/-- C10: For every frame, the ColorDetectionResult returned by
`ColorDetectionService.detect_in_frame` satisfies: `total_detections`
equals the length of the detections list; `colors_found` contains exactly
the color names for which at least one contour was accepted; and `mask` is
`None` exactly when no contour was accepted (`total_detections = 0`),
otherwise it is the union of the filled accepted contours.  The hypothesis
records that rasterizing a non-degenerate contour paints at least one
pixel. -/
theorem color_result_invariants {F : Type} (cfg : ColorDetectionConfig)
    (toHSV blur : F → F)
    (contoursOf : F → String × HSVRange → List ColorContour)
    (drawDetection : F → ColorContour → F) (frame : F)
    (hfill : ∀ s e c, c ∈ contoursOf s e → c.fill ≠ ∅) :
    (colorDetectInFrame cfg toHSV blur contoursOf drawDetection
        frame).1.total_detections
      = (colorDetectInFrame cfg toHSV blur contoursOf drawDetection
        frame).1.detections.length
    ∧ (∀ name, name ∈ (colorDetectInFrame cfg toHSV blur contoursOf
        drawDetection frame).1.colors_found ↔
        ∃ c, (name, c) ∈ (colorDetectInFrame cfg toHSV blur contoursOf
          drawDetection frame).1.detections)
    ∧ ((colorDetectInFrame cfg toHSV blur contoursOf drawDetection
        frame).1.mask = none ↔
        (colorDetectInFrame cfg toHSV blur contoursOf drawDetection
          frame).1.detections = [])
    ∧ (∀ m, (colorDetectInFrame cfg toHSV blur contoursOf drawDetection
        frame).1.mask = some m →
        m = (colorDetectInFrame cfg toHSV blur contoursOf drawDetection
          frame).1.detections.foldl (fun acc p => acc ∪ p.2.fill) ∅) := by
  simp only [colorDetectInFrame]
  refine ⟨trivial, ?_, ?_, ?_⟩
  · intro name
    exact colorLoop_colors_iff cfg _ drawDetection cfg.hsv_ranges frame ∅
      name
  · have hmask := colorLoop_mask_eq cfg
      (contoursOf (if 1 < cfg.blur_kernel_size then blur (toHSV frame)
        else toHSV frame)) drawDetection cfg.hsv_ranges frame ∅
    constructor
    · intro h
      by_cases hz : (colorLoop cfg (contoursOf
          (if 1 < cfg.blur_kernel_size then blur (toHSV frame)
            else toHSV frame)) drawDetection cfg.hsv_ranges frame
          ∅).2.2.2 = ∅
      · rw [hmask] at hz
        have hall := (foldl_union_fill_eq_empty _ ∅).mp hz
        rcases hdet : (colorLoop cfg (contoursOf
            (if 1 < cfg.blur_kernel_size then blur (toHSV frame)
              else toHSV frame)) drawDetection cfg.hsv_ranges frame
            ∅).1 with _ | ⟨p, rest⟩
        · rfl
        · exfalso
          obtain ⟨e, _, hpc⟩ := colorLoop_detections_mem cfg _
            drawDetection cfg.hsv_ranges frame ∅ p
            (by rw [hdet]; exact List.mem_cons_self _ _)
          exact hfill _ e p.2 hpc
            (hall.2 p (by rw [hdet]; exact List.mem_cons_self _ _))
      · rw [if_neg hz] at h
        exact absurd h (by simp)
    · intro h
      have hz : (colorLoop cfg (contoursOf
          (if 1 < cfg.blur_kernel_size then blur (toHSV frame)
            else toHSV frame)) drawDetection cfg.hsv_ranges frame
          ∅).2.2.2 = ∅ := by
        rw [hmask, h]
        rfl
      rw [if_pos hz]
  · intro m hm
    by_cases hz : (colorLoop cfg (contoursOf
        (if 1 < cfg.blur_kernel_size then blur (toHSV frame)
          else toHSV frame)) drawDetection cfg.hsv_ranges frame
        ∅).2.2.2 = ∅
    · rw [if_pos hz] at hm
      exact absurd hm (by simp)
    · rw [if_neg hz] at hm
      injection hm with hm
      rw [← hm]
      exact colorLoop_mask_eq cfg _ drawDetection cfg.hsv_ranges frame ∅

/-- Witness for C10: one configured range, one accepted contour with a
one-pixel fill. -/
theorem color_result_invariants_witness :
    (colorDetectInFrame
        { createDefaultColorConfig with
            hsv_ranges := [("verde", ((30, 60, 60), (85, 255, 255)))] }
        id id
        (fun _ _ => [⟨1000, 0, 0, 30, 30, 1000, 40, {(0, 0)}⟩])
        (fun u _ => u) ()).1.mask = none ↔
    (colorDetectInFrame
        { createDefaultColorConfig with
            hsv_ranges := [("verde", ((30, 60, 60), (85, 255, 255)))] }
        id id
        (fun _ _ => [⟨1000, 0, 0, 30, 30, 1000, 40, {(0, 0)}⟩])
        (fun u _ => u) ()).1.detections = [] :=
  (color_result_invariants
    { createDefaultColorConfig with
        hsv_ranges := [("verde", ((30, 60, 60), (85, 255, 255)))] }
    id id (fun _ _ => [⟨1000, 0, 0, 30, 30, 1000, 40, {(0, 0)}⟩])
    (fun u _ => u) ()
    (by
      intro s e c hc
      simp only [List.mem_singleton] at hc
      subst hc
      decide)).2.2.1

/-- C9: For every input frame, `detect_in_frame` of both the keypoint
service (OpenCVService) and the color service (ColorDetectionService)
leaves the caller's frame buffer unmodified: all overlay drawing is
performed on an internal copy (`output_frame = frame.copy()`), so the input
frame after the call equals the input frame before the call. -/
theorem detect_in_frame_preserves_input {F Img KP Des H : Type}
    (bank : List (ReferenceData Img KP Des))
    (findCands : F → List Rect)
    (frameFeatures : F → List KP × Option Des)
    (tryGlobal : List KP → Des →
      ReferenceData Img KP Des → Option Rect → TryMatchResult H)
    (roiFeatures : Rect → List KP × Option Des)
    (roiHu : Rect → Option (List Rat))
    (tryRoi : Rect → List KP → Des →
      ReferenceData Img KP Des → Option Rect → TryMatchResult H)
    (huDist : List Rat → List Rat → Rat)
    (drawPoly : F → TryMatchResult H → F)
    (drawFew : F → F)
    (drawInsufficient : F → F)
    (drawInfo : F → Nat → F)
    (cfg : ColorDetectionConfig)
    (toHSV blur : F → F)
    (contoursOf : F → String × HSVRange → List ColorContour)
    (drawDetection : F → ColorContour → F)
    (frame : F) :
    (kpDetectInFrame bank findCands frameFeatures tryGlobal roiFeatures
      roiHu tryRoi huDist drawPoly drawFew drawInsufficient drawInfo
      frame).2 = frame
    ∧ (colorDetectInFrame cfg toHSV blur contoursOf drawDetection
      frame).2 = frame :=
  ⟨rfl, rfl⟩

end Nopal
